import Mathlib

/-!
Verification of the anerbot webhook/queue pipeline.

This file is a shallow embedding of the Go sources of the repository:

* `src/queue/queue.go` — the deployed `anerbot-queue` Google Cloud Function
  (HTTP entry point `Queue`, signature check `verifyWebHook`,
  `checkTimestamp`, `getSignature`).
* `src/response/response.go` — the deployed `anerbot-response` function
  (`Response`, `sendFailureMessage`, `buildSlackResponse`).

Machine integers are modelled as `Nat`/`Int`, byte slices as `List Nat`,
Go strings as Lean `String`.  External effects (the Pub/Sub publish, the
Airtable lookup, the callback HTTP POST and the HMAC-SHA256 primitive from
Go's `crypto/hmac`/`crypto/sha256` standard library) are passed in as
explicit parameters; everything the repository's own code does with their
results is embedded faithfully.  A handler run is modelled as the ordered
list of externally visible events it produces (header/status/body writes,
publish calls) together with how it terminates: a normal return, a
`log.Fatalf` process abort, or a Go runtime panic.
-/

/-! ### Models of Go standard-library helpers used by the sources -/

/-- Model of `strings.HasPrefix` at the character-list level: `listHasPre p s`
is true when `p` is a prefix of `s`. -/
def listHasPre : List Char → List Char → Bool
  | [], _ => true
  | _ :: _, [] => false
  | p :: ps, c :: cs => p == c && listHasPre ps cs

/-- Model of Go `strings.HasPrefix s p`. -/
def goHasPre (s p : String) : Bool :=
  listHasPre p.data s.data

/-- Model of Go `strings.TrimPrefix s p`: drops `p` from the front of `s`
when present, otherwise returns `s` unchanged. -/
def goTrimPre (s p : String) : String :=
  if goHasPre s p then String.mk (s.data.drop p.data.length) else s

/-- Decimal digit value of a character, `none` when it is not `0`–`9`. -/
def digitVal (c : Char) : Option Nat :=
  if 48 ≤ c.toNat ∧ c.toNat ≤ 57 then some (c.toNat - 48) else none

/-- Accumulating loop of decimal parsing: fails on the first non-digit. -/
def parseDigitsAux : List Char → Nat → Option Nat
  | [], acc => some acc
  | c :: cs, acc =>
    match digitVal c with
    | none => none
    | some d => parseDigitsAux cs (acc * 10 + d)

/-- Parse a non-empty run of decimal digits. -/
def parseDigits (cs : List Char) : Option Nat :=
  match cs with
  | [] => none
  | _ => parseDigitsAux cs 0

/-- Model of Go `strconv.ParseInt(s, 10, 64)`: an optional sign, then at
least one decimal digit, within the signed 64-bit range.  Go reports
out-of-range and syntax errors alike through the error result, which the
sources treat uniformly, so both become `none` here. -/
def parseInt64 (s : String) : Option Int :=
  match s.data with
  | [] => none
  | c :: cs =>
    if c = '+' then
      match parseDigits cs with
      | some n => if n ≤ 9223372036854775807 then some (Int.ofNat n) else none
      | none => none
    else if c = '-' then
      match parseDigits cs with
      | some n => if n ≤ 9223372036854775808 then some (-(Int.ofNat n)) else none
      | none => none
    else
      match parseDigits (c :: cs) with
      | some n => if n ≤ 9223372036854775807 then some (Int.ofNat n) else none
      | none => none

/-- Hex value of one character, accepting both cases as Go
`encoding/hex` does. -/
def hexDigitVal (c : Char) : Option Nat :=
  if 48 ≤ c.toNat ∧ c.toNat ≤ 57 then some (c.toNat - 48)
  else if 97 ≤ c.toNat ∧ c.toNat ≤ 102 then some (c.toNat - 87)
  else if 65 ≤ c.toNat ∧ c.toNat ≤ 70 then some (c.toNat - 55)
  else none

/-- Model of Go `hex.DecodeString` on the character list: consumes pairs of
hex digits; an odd length or an invalid digit is an error (`none`). -/
def hexDecodeChars : List Char → Option (List Nat)
  | [] => some []
  | [_] => none
  | c1 :: c2 :: rest =>
    match hexDigitVal c1, hexDigitVal c2, hexDecodeChars rest with
    | some hi, some lo, some tail => some ((hi * 16 + lo) :: tail)
    | _, _, _ => none

/-- Model of Go `hex.DecodeString`. -/
def hexDecodeString (s : String) : Option (List Nat) :=
  hexDecodeChars s.data

/-- Loop of Go `crypto/subtle.ConstantTimeCompare` (which implements
`crypto/hmac.Equal` for equal-length inputs): accumulates the OR of the
XORs of corresponding bytes into `v`, and also counts how many loop
iterations were executed, as an explicit cost model of its running time. -/
def ctcLoop : List Nat → List Nat → Nat → Nat × Nat
  | a :: x, b :: y, v =>
    let r := ctcLoop x y (v ||| (a ^^^ b))
    (r.1, r.2 + 1)
  | _, _, v => (v, 0)

/-- Model of Go `crypto/hmac.Equal`, i.e. `subtle.ConstantTimeCompare`:
`false` immediately when the lengths differ, otherwise the accumulated OR
of byte XORs must be zero. -/
def hmacEqual (x y : List Nat) : Bool :=
  if x.length = y.length then (ctcLoop x y 0).1 == 0 else false

/-- Cost model of `hmacEqual`: one step for the length test, plus the
number of loop iterations `ctcLoop` executes. -/
def hmacEqualCost (x y : List Nat) : Nat :=
  if x.length = y.length then 1 + (ctcLoop x y 0).2 else 1

/-! ### Data model of the queue side (src/queue/queue.go) -/

/-- Constant `version` from src/queue/queue.go. -/
def version : String := "v0"

/-- Struct `queueMessage` from src/queue/queue.go: the message published
to Pub/Sub. -/
structure queueMessage where
  Query : String
  ResponseUrl : String
deriving DecidableEq

/-- Struct `queueResponse` from src/queue/queue.go: the JSON reply sent
back to Slack. -/
structure queueResponse where
  ResponseType : String
  Text : String
deriving DecidableEq

/-- An inbound HTTP request as the `Queue` handler observes it: method,
the `ping` query-string parameter, the two Slack headers, the raw body,
and the parsed form (`r.Form` after `r.ParseForm()`, a multimap from field
name to values; `ParseForm` itself only fails on malformed percent
escapes, a case the claims do not touch, so the parsed form is taken as
given). -/
structure HttpRequest where
  method : String
  pingQuery : String
  tsHeader : String
  sigHeader : String
  body : String
  form : String → List String

/-- Process configuration of the queue function, loaded once in `init()`
from the environment. -/
structure QueueConfig where
  slackSigSecret : String
  slackChannelID : String

/-- External collaborators of the queue function: the HMAC-SHA256
primitive (Go `crypto/hmac` with `crypto/sha256`, a library function:
`base ↦ secret ↦ MAC bytes`), the current time in epoch seconds, and the
outcome of `publishMessage`'s Pub/Sub round trip for a given message
(`none` = the publish was acknowledged, `some e` = it failed with
error `e`). -/
structure QueueEnv where
  hmacSHA256 : String → String → List Nat
  now : Int
  publishResult : queueMessage → Option String

/-- Function `getSignature` from src/queue/queue.go: the HMAC-SHA256 of
`base` keyed by `secret`; the primitive itself is Go library code and is
passed in as `hmacSHA256`. -/
def getSignature (hmacSHA256 : String → String → List Nat)
    (base secret : String) : List Nat :=
  hmacSHA256 base secret

/-- Function `checkTimestamp` from src/queue/queue.go: computes
`time.Since(time.Unix(timeStamp, 0))` (here in whole seconds) and accepts
when that duration is at most five minutes.  Returns the flag and the
duration, as the source does. -/
def checkTimestamp (timeStamp : Int) (now : Int) : Bool × Int :=
  let t := now - timeStamp
  (decide (t ≤ 300), t)

/-- Function `verifyWebHook` from src/queue/queue.go.  Go's
`(bool, error)` result becomes `Except`: `Except.error e` is
`(false, err)`, `Except.ok b` is `(b, nil)`.  The error strings keep the
source's identifying text with the same interpolated arguments where they
are strings. -/
def verifyWebHook (hmacSHA256 : String → String → List Nat) (now : Int)
    (r : HttpRequest) (slackSigningSecret : String) : Except String Bool :=
  let timeStamp := r.tsHeader
  let slackSignature := r.sigHeader
  match parseInt64 timeStamp with
  | none => Except.error ("strconv.ParseInt(" ++ timeStamp ++ ")")
  | some t =>
    if !(checkTimestamp t now).1 then Except.error "checkTimestamp"
    else if timeStamp == "" || slackSignature == "" then
      Except.error "either timeStamp or signature headers were blank"
    else
      let baseString := version ++ ":" ++ timeStamp ++ ":" ++ r.body
      let signature := getSignature hmacSHA256 baseString slackSigningSecret
      let trimmed := goTrimPre slackSignature (version ++ "=")
      match hexDecodeString trimmed with
      | none => Except.error ("hex.DecodeString(" ++ trimmed ++ ")")
      | some signatureInHeader => Except.ok (hmacEqual signature signatureInHeader)

/-- Query normalization inlined in `Queue` (src/queue/queue.go lines
163–165): when the text has the prefix `"search"`, trim the prefix
`"search "` (note: the presence test uses `"search"` without the space,
the trim uses `"search "` with it, exactly as the source does). -/
def normalizeQuery (queryText : String) : String :=
  if goHasPre queryText "search" then goTrimPre queryText "search "
  else queryText

/-- Response texts built by `Queue`: the wrong-channel rejection, which
interpolates the configured channel ID. -/
def wrongChannelText (allowedChannel : String) : String :=
  "Anerbot needs to run in <#" ++ allowedChannel ++ ">, try again there! :broken_heart:"

/-- Response texts built by `Queue`: the empty-query rejection. -/
def emptyQueryText : String :=
  "Unable search for an empty string! :this-is-fine:"

/-- Response texts built by `Queue`: the success acknowledgment, which
echoes the normalized query. -/
def hangTightText (queryText : String) : String :=
  "Hang tight - gathering results for \"" ++ queryText ++ "\"."

/-- Externally visible events of one `Queue` run, in program order:
setting the Content-Type header, `w.WriteHeader`, `http.Error`, JSON
encoding a `queueResponse` onto the response, and a call to
`publishMessage` together with the result of its publish round trip
(`none` = acknowledged). -/
inductive QueueEvent where
  | setContentType (value : String)
  | wroteStatus (code : Nat)
  | httpError (msg : String) (code : Nat)
  | encodedJSON (res : queueResponse)
  | publishCalled (m : queueMessage) (result : Option String)
deriving DecidableEq

/-- How a handler invocation ends: a normal return, a `log.Fatalf`
process abort, or a Go runtime panic. -/
inductive HandlerResult where
  | returned
  | fatal (msg : String)
  | panicked (msg : String)
deriving DecidableEq

/-- Go's message for indexing element 0 of an empty slice. -/
def indexPanicMsg : String :=
  "runtime error: index out of range [0] with length 0"

/-- Function `Queue` from src/queue/queue.go, the HTTP entry point of the
`anerbot-queue` cloud function, as a trace of events plus the way the
invocation terminates.  Reading the body and `ParseForm` are assumed to
succeed (their failure paths depend only on transport errors); JSON
encoding of a `queueResponse` cannot fail in Go and is modelled as always
succeeding. -/
def Queue (env : QueueEnv) (cfg : QueueConfig) (r : HttpRequest) :
    List QueueEvent × HandlerResult :=
  if r.pingQuery ≠ "" then ([], HandlerResult.returned)
  else if r.method ≠ "POST" then
    ([QueueEvent.httpError "Only POST requests are accepted" 405], HandlerResult.returned)
  else
    match verifyWebHook env.hmacSHA256 env.now r cfg.slackSigSecret with
    | Except.error e => ([], HandlerResult.fatal ("verifyWebhook: " ++ e))
    | Except.ok ok =>
      if !ok then
        ([], HandlerResult.fatal "unable to validate request: signatures did not match")
      else
        match r.form "text" with
        | [] => ([], HandlerResult.fatal "empty text in form")
        | queryText0 :: _ =>
          let ev0 := [QueueEvent.setContentType "application/json",
                      QueueEvent.wroteStatus 200]
          match r.form "channel_id" with
          | [] => (ev0, HandlerResult.panicked indexPanicMsg)
          | channelId :: _ =>
            if channelId ≠ cfg.slackChannelID then
              (ev0 ++ [QueueEvent.encodedJSON
                ⟨"ephemeral", wrongChannelText cfg.slackChannelID⟩],
               HandlerResult.returned)
            else if queryText0 == "" then
              (ev0 ++ [QueueEvent.encodedJSON ⟨"ephemeral", emptyQueryText⟩],
               HandlerResult.returned)
            else
              match r.form "response_url" with
              | [] => (ev0, HandlerResult.panicked indexPanicMsg)
              | respUrl :: _ =>
                match env.publishResult ⟨normalizeQuery queryText0, respUrl⟩ with
                | some e =>
                  (ev0 ++ [QueueEvent.publishCalled ⟨normalizeQuery queryText0, respUrl⟩ (some e)],
                   HandlerResult.fatal ("unable to publish message: " ++ e))
                | none =>
                  (ev0 ++ [QueueEvent.publishCalled ⟨normalizeQuery queryText0, respUrl⟩ none,
                    QueueEvent.encodedJSON
                      ⟨"ephemeral", hangTightText (normalizeQuery queryText0)⟩],
                   HandlerResult.returned)

/-- Whether a trace contains any call to `publishMessage`. -/
def publishedIn (tr : List QueueEvent) : Bool :=
  tr.any fun ev =>
    match ev with
    | QueueEvent.publishCalled _ _ => true
    | _ => false

/-- Whether a trace contains an acknowledged (successful) publish. -/
def ackedPublishIn (tr : List QueueEvent) : Bool :=
  tr.any fun ev =>
    match ev with
    | QueueEvent.publishCalled _ none => true
    | _ => false

/-- Whether a trace contains a JSON response whose text is the success
acknowledgment (begins with "Hang tight"). -/
def hangTightIn (tr : List QueueEvent) : Bool :=
  tr.any fun ev =>
    match ev with
    | QueueEvent.encodedJSON res => goHasPre res.Text "Hang tight"
    | _ => false

/-- Queries of all messages a trace published. -/
def publishedQueries (tr : List QueueEvent) : List String :=
  tr.filterMap fun ev =>
    match ev with
    | QueueEvent.publishCalled m _ => some m.Query
    | _ => none

/-- Position of the first explicit status write in a trace. -/
def statusIdx (tr : List QueueEvent) : Option Nat :=
  tr.findIdx? fun ev =>
    match ev with
    | QueueEvent.wroteStatus _ => true
    | _ => false

/-- Position of the first acknowledged publish in a trace. -/
def ackIdx (tr : List QueueEvent) : Option Nat :=
  tr.findIdx? fun ev =>
    match ev with
    | QueueEvent.publishCalled _ none => true
    | _ => false

/-- The HTTP status the caller observes for a finished handler: the first
explicitly written status, or 200, which Go's `net/http` sends implicitly
when the handler returns without writing one. -/
def finalStatus (tr : List QueueEvent) : Nat :=
  match tr.findSome? (fun ev =>
    match ev with
    | QueueEvent.wroteStatus c => some c
    | QueueEvent.httpError _ c => some c
    | _ => none) with
  | some c => c
  | none => 200

/-! ### Data model of the response side (src/response/response.go) -/

/-- Named fields of one Airtable record, the inner struct of `feature`
in src/response/response.go. -/
structure featureFields where
  Feature : String
  Roadmap : String
  TeamResponsible : String
  Plan : String
  FeatureFlag : String
  Entitlements : String
  Documentation : String
deriving DecidableEq

/-- Struct `feature` from src/response/response.go. -/
structure feature where
  AirtableID : String
  Fields : featureFields
deriving DecidableEq

/-- Struct `attachmentField` from src/response/response.go. -/
structure attachmentField where
  Title : String
  Value : String
deriving DecidableEq

/-- Struct `attachment` from src/response/response.go. -/
structure attachment where
  Title : String
  Fallback : String
  TitleLink : String
  Fields : List attachmentField
deriving DecidableEq

/-- Struct `slackResponse` from src/response/response.go: the payload
POSTed to the caller-supplied callback URL. -/
structure slackResponse where
  ReplaceOriginal : String
  ResponseType : String
  Text : String
  Attachments : List attachment
deriving DecidableEq

/-- Configuration of the response function loaded in its `init()`. -/
structure ResponseConfig where
  airtableTableID : String
  airtableViewID : String

/-- External collaborators of the response function: the Airtable lookup
(`queryAirtable`, which wraps the out-of-scope Airtable client: per query
either the record list or an error) and the HTTP POST of a JSON payload to
a URL (`none` = the request went through, `some e` = building or sending
it failed). -/
structure ResponseEnv where
  cfg : ResponseConfig
  queryAirtable : String → Except String (List feature)
  httpPost : String → slackResponse → Option String

/-- Externally visible events of one consumer run: each attempted POST of
a payload to a callback URL, with its outcome. -/
inductive ConsumerEvent where
  | callbackPost (url : String) (payload : slackResponse) (result : Option String)
deriving DecidableEq

/-- How one consumer invocation ends: `Response` returns its `error`
result to the Pub/Sub runtime (`none` = nil), or `log.Fatalf` aborts the
process. -/
inductive ConsumerOutcome where
  | returned (err : Option String)
  | fatal (msg : String)
deriving DecidableEq

/-- Fixed text of the failure notification in `sendFailureMessage`. -/
def airtableFailureText : String :=
  "Failed to fetch records from Airtable :sob:"

/-- The `slackResponse` built by `sendFailureMessage`: only
`response_type` and `text` are set; `ReplaceOriginal` keeps Go's zero
value and `Attachments` stays nil. -/
def failurePayload : slackResponse :=
  ⟨"", "ephemeral", airtableFailureText, []⟩

/-- Per-feature block of `buildSlackResponse`: the Slack-markdown value
string concatenated from the non-empty fields, separated by CR LF. -/
def featureValue (v : feature) : String :=
  (if v.Fields.Roadmap ≠ "" then
    ":sparkles: *Roadmap:* " ++ v.Fields.Roadmap ++ "\r\n" else "") ++
  (if v.Fields.TeamResponsible ≠ "" then
    ":one-team: *Team(s):* " ++ v.Fields.TeamResponsible ++ "\r\n" else "") ++
  (if v.Fields.Plan ≠ "" then
    ":moneybag: *Plan:* " ++ v.Fields.Plan ++ "\r\n" else "") ++
  (if v.Fields.FeatureFlag ≠ "" then
    ":triangular_flag_on_post: *Feature Flag:* " ++ v.Fields.FeatureFlag ++ "\r\n" else "") ++
  (if v.Fields.Entitlements ≠ "" then
    ":crown: *Entitlements:* " ++ v.Fields.Entitlements ++ "\r\n" else "") ++
  (if v.Fields.Documentation ≠ "" then
    ":books: *Documentation:* " ++ v.Fields.Documentation ++ "\r\n" else "")

/-- Function `buildSlackResponse` from src/response/response.go (its Go
error result is always nil, so it is a pure function here): the headline
text counts the results, and each feature becomes one attachment linking
to its Airtable record. -/
def buildSlackResponse (cfg : ResponseConfig) (f : List feature) : slackResponse :=
  let text :=
    if f.length = 0 then "No items found, try another search term"
    else "Found " ++ toString f.length ++ " items! Click on any result to learn more."
  { ReplaceOriginal := "true"
    ResponseType := "ephemeral"
    Text := text
    Attachments := f.map fun v =>
      let link := "https://airtable.com/" ++ cfg.airtableTableID ++ "/" ++
        cfg.airtableViewID ++ "/" ++ v.AirtableID
      { Title := v.Fields.Feature
        Fallback := v.Fields.Feature ++ ": " ++ link
        TitleLink := link
        Fields := [⟨"", featureValue v⟩] } }

/-- Function `sendFailureMessage` from src/response/response.go: marshals
the fixed failure payload (marshalling a `slackResponse` cannot fail) and
POSTs it to `url`; when building or performing the request fails the
source calls `log.Fatalf`.  Returns the events and `some fatalMsg` when
the process aborted. -/
def sendFailureMessage (env : ResponseEnv) (url : String) :
    List ConsumerEvent × Option String :=
  match env.httpPost url failurePayload with
  | some e =>
    ([ConsumerEvent.callbackPost url failurePayload (some e)],
     some ("unable to send message to Slack: " ++ e))
  | none => ([ConsumerEvent.callbackPost url failurePayload none], none)

/-- Function `Response` from src/response/response.go, the Pub/Sub entry
point of the `anerbot-response` function.  The JSON unmarshalling of the
Pub/Sub data bytes is modelled by its result: `Except.error e` for a
malformed payload, `Except.ok message` otherwise. -/
def Response (env : ResponseEnv) (m : Except String queueMessage) :
    List ConsumerEvent × ConsumerOutcome :=
  match m with
  | Except.error e =>
    ([], ConsumerOutcome.returned (some ("could not unmarshal message: " ++ e)))
  | Except.ok message =>
    match env.queryAirtable message.Query with
    | Except.error e =>
      let sent := sendFailureMessage env message.ResponseUrl
      match sent.2 with
      | some fatalMsg => (sent.1, ConsumerOutcome.fatal fatalMsg)
      | none =>
        (sent.1, ConsumerOutcome.returned (some ("error querying Airtable: " ++ e)))
    | Except.ok atr =>
      let res := buildSlackResponse env.cfg atr
      match env.httpPost message.ResponseUrl res with
      | some e =>
        ([ConsumerEvent.callbackPost message.ResponseUrl res (some e)],
         ConsumerOutcome.returned (some ("unable to send message to Slack: " ++ e)))
      | none =>
        ([ConsumerEvent.callbackPost message.ResponseUrl res none],
         ConsumerOutcome.returned none)

deriving instance DecidableEq for Except

/-! ### Concrete fixtures used to evaluate the embedding -/

/-- Constant-zero instantiation of the HMAC primitive, used only to
evaluate the (primitive-parametric) embedding at concrete requests: under
it the empty byte string is the valid MAC of every message. -/
def hmZero : String → String → List Nat := fun _ _ => []

/-- Concrete queue configuration for evaluation. -/
def cfgOk : QueueConfig := ⟨"sec", "C123"⟩

/-- Concrete environment: zero HMAC, current time 100, publishes always
acknowledged. -/
def envOk : QueueEnv := ⟨hmZero, 100, fun _ => none⟩

/-- Concrete environment whose publish round trip always fails. -/
def envPubFail : QueueEnv := ⟨hmZero, 100, fun _ => some "pubsub down"⟩

/-- Parsed form of a fully well-formed Slack request. -/
def formOk : String → List String := fun k =>
  if k = "text" then ["golang"]
  else if k = "channel_id" then ["C123"]
  else if k = "response_url" then ["u"]
  else []

/-- A signed, well-formed POST request from the allowed channel. -/
def reqOk : HttpRequest := ⟨"POST", "", "100", "v0=", "b", formOk⟩

/-- A request whose timestamp header is not numeric, so signature
verification fails. -/
def reqBadTs : HttpRequest := ⟨"POST", "", "abc", "v0=", "b", fun _ => []⟩

/-- A correctly signed request whose timestamp is 1000 seconds in the
future of the evaluation time 1700000000. -/
def reqFuture : HttpRequest := ⟨"POST", "", "1700001000", "v0=", "b", fun _ => []⟩

/-- Parsed form whose channel differs from the allowed channel. -/
def formWrongChannel : String → List String := fun k =>
  if k = "text" then ["golang"]
  else if k = "channel_id" then ["WRONG"]
  else if k = "response_url" then ["u"]
  else []

/-- A signed, well-formed POST request from the wrong channel. -/
def reqWrongChannel : HttpRequest := ⟨"POST", "", "100", "v0=", "b", formWrongChannel⟩

/-- Parsed form whose text is the empty string. -/
def formEmptyText : String → List String := fun k =>
  if k = "text" then [""]
  else if k = "channel_id" then ["C123"]
  else if k = "response_url" then ["u"]
  else []

/-- A signed, well-formed POST request with empty query text. -/
def reqEmptyText : HttpRequest := ⟨"POST", "", "100", "v0=", "b", formEmptyText⟩

/-- Parsed form whose text is the literal "search " (prefix word and
space, nothing after), from the allowed channel. -/
def formSearchSpace : String → List String := fun k =>
  if k = "text" then ["search "]
  else if k = "channel_id" then ["C123"]
  else if k = "response_url" then ["u"]
  else []

/-- A signed, well-formed POST request whose text is "search ". -/
def reqSearchSpace : HttpRequest := ⟨"POST", "", "100", "v0=", "b", formSearchSpace⟩

/-- Parsed form that has text but no channel_id field at all. -/
def formNoChannel : String → List String := fun k =>
  if k = "text" then ["hi"] else []

/-- A signed POST request whose form omits channel_id. -/
def reqNoChannel : HttpRequest := ⟨"POST", "", "100", "v0=", "b", formNoChannel⟩

/-- A request carrying a non-empty ping query-string parameter. -/
def reqPing : HttpRequest := ⟨"GET", "1", "", "", "", fun _ => []⟩

/-- Concrete consumer environment: the Airtable lookup fails and the
callback POST itself also fails. -/
def envLookupAndPostFail : ResponseEnv :=
  ⟨⟨"tbl", "view"⟩, fun _ => Except.error "airtable down", fun _ _ => some "network"⟩

/-- Concrete consumer environment: the Airtable lookup fails but the
callback POST goes through. -/
def envLookupFail : ResponseEnv :=
  ⟨⟨"tbl", "view"⟩, fun _ => Except.error "boom", fun _ _ => none⟩

/-! ### Helper lemmas -/

theorem natOrEqZero (a b : Nat) : a ||| b = 0 ↔ a = 0 ∧ b = 0 := by
  constructor
  · intro h
    refine ⟨Nat.zero_of_testBit_eq_false fun i => ?_,
            Nat.zero_of_testBit_eq_false fun i => ?_⟩
    · have h2 := congrArg (fun n => Nat.testBit n i) h
      simp only [Nat.testBit_or, Nat.zero_testBit, Bool.or_eq_false_iff] at h2
      exact h2.1
    · have h2 := congrArg (fun n => Nat.testBit n i) h
      simp only [Nat.testBit_or, Nat.zero_testBit, Bool.or_eq_false_iff] at h2
      exact h2.2
  · rintro ⟨rfl, rfl⟩
    rfl

theorem ctcLoop_snd (x y : List Nat) (v : Nat) (h : x.length = y.length) :
    (ctcLoop x y v).2 = x.length := by
  induction x generalizing y v with
  | nil => cases y with
    | nil => simp [ctcLoop]
    | cons b ys => simp at h
  | cons a xs ih =>
    cases y with
    | nil => simp at h
    | cons b ys =>
      simp only [List.length_cons, Nat.succ.injEq] at h
      simp [ctcLoop, ih ys _ h]

theorem ctcLoop_fst_eq_zero (x y : List Nat) (v : Nat) (h : x.length = y.length) :
    ((ctcLoop x y v).1 = 0 ↔ v = 0 ∧ x = y) := by
  induction x generalizing y v with
  | nil => cases y with
    | nil => simp [ctcLoop]
    | cons b ys => simp at h
  | cons a xs ih =>
    cases y with
    | nil => simp at h
    | cons b ys =>
      simp only [List.length_cons, Nat.succ.injEq] at h
      rw [ctcLoop]
      simp only []
      rw [ih ys _ h, natOrEqZero, Nat.xor_eq_zero]
      constructor
      · rintro ⟨⟨hv, hab⟩, hxy⟩
        exact ⟨hv, by rw [hab, hxy]⟩
      · rintro ⟨hv, hcons⟩
        injection hcons with h1 h2
        exact ⟨⟨hv, h1⟩, h2⟩

theorem hmacEqual_eq_true_iff (x y : List Nat) : hmacEqual x y = true ↔ x = y := by
  unfold hmacEqual
  by_cases h : x.length = y.length
  · rw [if_pos h]
    rw [beq_iff_eq, ctcLoop_fst_eq_zero x y 0 h]
    constructor
    · rintro ⟨_, hxy⟩; exact hxy
    · intro hxy; exact ⟨rfl, hxy⟩
  · rw [if_neg h]
    constructor
    · intro hf; cases hf
    · intro hxy; exact absurd (congrArg List.length hxy) h

theorem string_data_append (a b : String) : (a ++ b).data = a.data ++ b.data := rfl

theorem listHasPre_append_true (p s t : List Char) (h : listHasPre p s = true) :
    listHasPre p (s ++ t) = true := by
  induction p generalizing s with
  | nil => simp [listHasPre]
  | cons c cs ih =>
    cases s with
    | nil => simp [listHasPre] at h
    | cons d ds =>
      simp only [listHasPre, List.cons_append, Bool.and_eq_true] at h ⊢
      exact ⟨h.1, ih ds h.2⟩

theorem listHasPre_append_false (p s t : List Char)
    (h : listHasPre p s = false) (hlen : p.length ≤ s.length) :
    listHasPre p (s ++ t) = false := by
  induction p generalizing s with
  | nil => simp [listHasPre] at h
  | cons c cs ih =>
    cases s with
    | nil => simp at hlen
    | cons d ds =>
      simp only [listHasPre, List.cons_append, Bool.and_eq_false_iff] at h ⊢
      rcases h with h | h
      · exact Or.inl h
      · exact Or.inr (ih ds h (by simpa using hlen))

theorem hangTight_pre_hangTightText (q : String) :
    goHasPre (hangTightText q) "Hang tight" = true := by
  unfold hangTightText goHasPre
  rw [string_data_append, string_data_append, List.append_assoc]
  apply listHasPre_append_true
  decide

theorem hangTight_not_pre_wrongChannelText (c : String) :
    goHasPre (wrongChannelText c) "Hang tight" = false := by
  unfold wrongChannelText goHasPre
  rw [string_data_append, string_data_append, List.append_assoc]
  apply listHasPre_append_false
  · decide
  · decide

theorem hangTight_not_pre_emptyQueryText :
    goHasPre emptyQueryText "Hang tight" = false := by decide

theorem listHasPre_length_le (p s : List Char) (h : listHasPre p s = true) :
    p.length ≤ s.length := by
  induction p generalizing s with
  | nil => simp
  | cons c cs ih =>
    cases s with
    | nil => simp [listHasPre] at h
    | cons d ds =>
      simp only [listHasPre, Bool.and_eq_true] at h
      simpa using ih ds h.2

theorem listHasPre_of_append (p q s : List Char)
    (h : listHasPre (p ++ q) s = true) : listHasPre p s = true := by
  induction p generalizing s with
  | nil => simp [listHasPre]
  | cons c cs ih =>
    cases s with
    | nil => simp [listHasPre] at h
    | cons d ds =>
      simp only [List.cons_append, listHasPre, Bool.and_eq_true] at h ⊢
      exact ⟨h.1, ih ds h.2⟩

theorem normalizeQuery_eq_self (r : String)
    (h : goHasPre r "search " = false) : normalizeQuery r = r := by
  unfold normalizeQuery
  by_cases h2 : goHasPre r "search" = true
  · rw [if_pos h2]
    unfold goTrimPre
    rw [h]
    simp
  · rw [if_neg h2]

theorem normalizeQuery_shrinks (r : String)
    (h : goHasPre r "search " = true) :
    (normalizeQuery r).data.length + 7 = r.data.length := by
  have h7 : ("search " : String).data.length = 7 := by decide
  have hsplit : ("search " : String).data = ("search" : String).data ++ [' '] := by decide
  have h2 : goHasPre r "search" = true := by
    unfold goHasPre at h ⊢
    rw [hsplit] at h
    exact listHasPre_of_append _ _ _ h
  have hle : (7 : Nat) ≤ r.data.length := by
    have hl := listHasPre_length_le ("search " : String).data r.data h
    rw [h7] at hl
    exact hl
  unfold normalizeQuery
  rw [if_pos h2]
  unfold goTrimPre
  rw [if_pos h]
  show (r.data.drop ("search " : String).data.length).length + 7 = r.data.length
  rw [h7, List.length_drop]
  omega

/-! ### Claim theorems -/

/-- C1 (code bug): `verifyWebHook` returns true for a correctly signed
request whose timestamp is 1000 seconds in the future of the current
time, because `checkTimestamp` only bounds `now - timestamp` from above
(a negative age passes the `≤ 5` minutes test); the claim requires
`verify` to return false for every timestamp more than 300 seconds in
the future regardless of signature correctness. -/
theorem verifyWebHook_accepts_future_timestamp :
    verifyWebHook hmZero 1700000000 reqFuture "sec" = Except.ok true ∧
    parseInt64 reqFuture.tsHeader = some 1700001000 ∧
    (checkTimestamp 1700001000 1700000000).1 = true ∧
    (1700001000 : Int) - 1700000000 > 300 := by decide

/-- C2 (counterexample): on a request whose signature verification fails
(here: a non-numeric timestamp header), the `Queue` handler does not
return normally — it terminates the process through `log.Fatalf`. -/
theorem queue_auth_failure_aborts_process_cex :
    Queue envOk cfgOk reqBadTs =
      ([], HandlerResult.fatal ("verifyWebhook: " ++ "strconv.ParseInt(" ++ "abc" ++ ")")) ∧
    (Queue envOk cfgOk reqBadTs).2 ≠ HandlerResult.returned := by decide

/-- C2 (amended): for every request on which signature verification
fails (an error or a false verdict), the `Queue` handler publishes no
message — the rejection happens before any queue side effect — but it
terminates the process via `log.Fatalf` instead of returning normally
after responding. -/
theorem queue_auth_failure_no_publish_but_fatal
    (env : QueueEnv) (cfg : QueueConfig) (r : HttpRequest)
    (hping : r.pingQuery = "") (hm : r.method = "POST")
    (hv : ∀ b, verifyWebHook env.hmacSHA256 env.now r cfg.slackSigSecret = Except.ok b →
      b = false) :
    publishedIn (Queue env cfg r).1 = false ∧
    ∃ msg, (Queue env cfg r).2 = HandlerResult.fatal msg := by
  unfold Queue
  rw [hping, hm]
  simp only [ne_eq, not_true_eq_false, if_false]
  cases hres : verifyWebHook env.hmacSHA256 env.now r cfg.slackSigSecret with
  | error e => simp [publishedIn]
  | ok b =>
    have hb := hv b hres
    subst hb
    simp [publishedIn]

/-- C2 (witness): the amended theorem applied to the concrete
failing-verification request. -/
theorem queue_auth_failure_no_publish_but_fatal_witness :
    reqBadTs.pingQuery = "" ∧ reqBadTs.method = "POST" ∧
    (publishedIn (Queue envOk cfgOk reqBadTs).1 = false ∧
      ∃ msg, (Queue envOk cfgOk reqBadTs).2 = HandlerResult.fatal msg) :=
  ⟨rfl, rfl,
    queue_auth_failure_no_publish_but_fatal envOk cfgOk reqBadTs rfl rfl (by decide)⟩

/-- C3 (counterexample): on a fully valid request, the `Queue` handler of
src/queue/queue.go writes the success HTTP status 200 (trace position 1)
before the publish is acknowledged (trace position 2), so part of the
success acknowledgment is sent to the caller before the queue accepted
the message. -/
theorem queue_success_status_precedes_publish_cex :
    Queue envOk cfgOk reqOk =
      ([QueueEvent.setContentType "application/json", QueueEvent.wroteStatus 200,
        QueueEvent.publishCalled ⟨"golang", "u"⟩ none,
        QueueEvent.encodedJSON ⟨"ephemeral", hangTightText "golang"⟩],
       HandlerResult.returned) ∧
    statusIdx (Queue envOk cfgOk reqOk).1 = some 1 ∧
    ackIdx (Queue envOk cfgOk reqOk).1 = some 2 := by decide

/-- C3 (amended): the "Hang tight" ephemeral text is never sent before
the publish acknowledgment — whenever it appears, the trace is exactly
header, status, acknowledged publish, then the "Hang tight" response, and
when `publishMessage` fails the handler emits no "Hang tight" at all and
aborts the process via `log.Fatalf` (it does not surface a
dispatch-failure response; the success status 200 has already been
written before the publish). -/
theorem queue_hang_tight_only_after_publish_ack
    (env : QueueEnv) (cfg : QueueConfig) (r : HttpRequest) :
    (hangTightIn (Queue env cfg r).1 = true →
      ∃ m : queueMessage,
        Queue env cfg r =
          ([QueueEvent.setContentType "application/json", QueueEvent.wroteStatus 200,
            QueueEvent.publishCalled m none,
            QueueEvent.encodedJSON ⟨"ephemeral", hangTightText m.Query⟩],
           HandlerResult.returned)) ∧
    (∀ (m : queueMessage) (e : String),
      QueueEvent.publishCalled m (some e) ∈ (Queue env cfg r).1 →
      hangTightIn (Queue env cfg r).1 = false ∧
      (Queue env cfg r).2 = HandlerResult.fatal ("unable to publish message: " ++ e)) := by
  unfold Queue
  repeat' split
  all_goals refine ⟨fun hht => ?_, fun m e hmem => ?_⟩
  all_goals simp_all [hangTightIn, hangTight_not_pre_wrongChannelText,
    hangTight_not_pre_emptyQueryText, hangTight_pre_hangTightText]

/-- C3 (witness): the amended theorem applied to a concrete environment
whose publish fails: the publish call is in the trace, no "Hang tight"
is emitted, and the handler aborts. -/
theorem queue_hang_tight_only_after_publish_ack_witness :
    QueueEvent.publishCalled ⟨"golang", "u"⟩ (some "pubsub down") ∈
      (Queue envPubFail cfgOk reqOk).1 ∧
    (hangTightIn (Queue envPubFail cfgOk reqOk).1 = false ∧
      (Queue envPubFail cfgOk reqOk).2 =
        HandlerResult.fatal ("unable to publish message: " ++ "pubsub down")) :=
  ⟨by decide,
    (queue_hang_tight_only_after_publish_ack envPubFail cfgOk reqOk).2
      ⟨"golang", "u"⟩ "pubsub down" (by decide)⟩

/-- C4 (confirmed): for every signed, well-formed POST request whose
channel_id form field differs from the configured allowed channel, the
`Queue` handler responds synchronously with the rejection message that
names the allowed channel (`wrongChannelText cfg.slackChannelID`
interpolates it), and no message is published. -/
theorem queue_wrong_channel_rejects_names_channel
    (env : QueueEnv) (cfg : QueueConfig) (r : HttpRequest)
    (t c : String) (ts cs : List String)
    (hping : r.pingQuery = "") (hm : r.method = "POST")
    (hv : verifyWebHook env.hmacSHA256 env.now r cfg.slackSigSecret = Except.ok true)
    (ht : r.form "text" = t :: ts) (hc : r.form "channel_id" = c :: cs)
    (hne : c ≠ cfg.slackChannelID) :
    Queue env cfg r =
      ([QueueEvent.setContentType "application/json", QueueEvent.wroteStatus 200,
        QueueEvent.encodedJSON ⟨"ephemeral", wrongChannelText cfg.slackChannelID⟩],
       HandlerResult.returned) ∧
    publishedIn (Queue env cfg r).1 = false := by
  unfold Queue
  rw [hping, hm, hv, ht, hc]
  simp only [ne_eq, not_true_eq_false, if_false, Bool.not_true]
  rw [if_pos hne]
  simp [publishedIn]

/-- C4 (witness): the theorem applied to a concrete signed request from
channel "WRONG" while the allowed channel is "C123". -/
theorem queue_wrong_channel_rejects_names_channel_witness :
    verifyWebHook envOk.hmacSHA256 envOk.now reqWrongChannel cfgOk.slackSigSecret =
      Except.ok true ∧
    reqWrongChannel.form "channel_id" = "WRONG" :: [] ∧
    ("WRONG" : String) ≠ cfgOk.slackChannelID ∧
    (Queue envOk cfgOk reqWrongChannel =
      ([QueueEvent.setContentType "application/json", QueueEvent.wroteStatus 200,
        QueueEvent.encodedJSON ⟨"ephemeral", wrongChannelText cfgOk.slackChannelID⟩],
       HandlerResult.returned) ∧
      publishedIn (Queue envOk cfgOk reqWrongChannel).1 = false) :=
  ⟨by decide, by decide, by decide,
    queue_wrong_channel_rejects_names_channel envOk cfgOk reqWrongChannel
      "golang" "WRONG" [] [] rfl rfl (by decide) (by decide) (by decide) (by decide)⟩

/-- C5 (counterexample): the request whose text form field is the
literal "search " passes the emptiness check (it is non-empty), is then
normalized to the empty string, and the handler publishes a
`queueMessage` whose query field is empty — falsifying "every
DeferredMessage ever published has a non-empty query field". -/
theorem queue_publishes_empty_query_cex :
    Queue envOk cfgOk reqSearchSpace =
      ([QueueEvent.setContentType "application/json", QueueEvent.wroteStatus 200,
        QueueEvent.publishCalled ⟨"", "u"⟩ none,
        QueueEvent.encodedJSON ⟨"ephemeral", hangTightText ""⟩],
       HandlerResult.returned) ∧
    publishedQueries (Queue envOk cfgOk reqSearchSpace).1 = [""] := by decide

/-- C5 (amended): for every signed, well-formed POST request from the
allowed channel whose text form field is the empty string, the `Queue`
handler responds synchronously with the empty-query error and publishes
no message; however, since the emptiness check runs before prefix
normalization, a published message's query field may still be empty
(text "search " is such a case). -/
theorem queue_empty_text_rejected_no_publish
    (env : QueueEnv) (cfg : QueueConfig) (r : HttpRequest)
    (ts cs : List String)
    (hping : r.pingQuery = "") (hm : r.method = "POST")
    (hv : verifyWebHook env.hmacSHA256 env.now r cfg.slackSigSecret = Except.ok true)
    (ht : r.form "text" = "" :: ts)
    (hc : r.form "channel_id" = cfg.slackChannelID :: cs) :
    Queue env cfg r =
      ([QueueEvent.setContentType "application/json", QueueEvent.wroteStatus 200,
        QueueEvent.encodedJSON ⟨"ephemeral", emptyQueryText⟩],
       HandlerResult.returned) ∧
    publishedIn (Queue env cfg r).1 = false := by
  unfold Queue
  rw [hping, hm, hv, ht, hc]
  simp [publishedIn]

/-- C5 (witness): the amended theorem applied to the concrete signed
request with empty text. -/
theorem queue_empty_text_rejected_no_publish_witness :
    reqEmptyText.form "text" = "" :: [] ∧
    reqEmptyText.form "channel_id" = cfgOk.slackChannelID :: [] ∧
    (Queue envOk cfgOk reqEmptyText =
      ([QueueEvent.setContentType "application/json", QueueEvent.wroteStatus 200,
        QueueEvent.encodedJSON ⟨"ephemeral", emptyQueryText⟩],
       HandlerResult.returned) ∧
      publishedIn (Queue envOk cfgOk reqEmptyText).1 = false) :=
  ⟨by decide, by decide,
    queue_empty_text_rejected_no_publish envOk cfgOk reqEmptyText [] []
      rfl rfl (by decide) (by decide) (by decide)⟩

/-- C6 (counterexample): when the Airtable lookup fails and the
best-effort failure callback POST itself also fails, `sendFailureMessage`
calls `log.Fatalf`, so the callback failure aborts the process —
falsifying "a failure of that callback POST itself is logged only ...
it never aborts the process". -/
theorem response_callback_failure_aborts_cex :
    Response envLookupAndPostFail (Except.ok ⟨"q", "u"⟩) =
      ([ConsumerEvent.callbackPost "u" failurePayload (some "network")],
       ConsumerOutcome.fatal ("unable to send message to Slack: " ++ "network")) := by
  decide

/-- C6 (amended): for every consumed message whose external lookup
fails, the Consumer POSTs the fixed failure text to the message's
callback URL; when that POST goes through, the lookup error is returned
(logged by the runtime) and not escalated, but when the callback POST
itself fails the process aborts via `log.Fatalf` instead of the failure
being logged only. -/
theorem response_lookup_failure_sends_fixed_callback
    (env : ResponseEnv) (msg : queueMessage) (e : String)
    (hq : env.queryAirtable msg.Query = Except.error e) :
    Response env (Except.ok msg) =
      ([ConsumerEvent.callbackPost msg.ResponseUrl failurePayload
          (env.httpPost msg.ResponseUrl failurePayload)],
       match env.httpPost msg.ResponseUrl failurePayload with
       | some e2 => ConsumerOutcome.fatal ("unable to send message to Slack: " ++ e2)
       | none => ConsumerOutcome.returned (some ("error querying Airtable: " ++ e))) := by
  cases hp : env.httpPost msg.ResponseUrl failurePayload with
  | none => simp [Response, sendFailureMessage, hq, hp]
  | some e2 => simp [Response, sendFailureMessage, hq, hp]

/-- C6 (witness): the amended theorem applied to a concrete environment
whose lookup fails and whose callback POST succeeds. -/
theorem response_lookup_failure_sends_fixed_callback_witness :
    envLookupFail.queryAirtable "q" = Except.error "boom" ∧
    Response envLookupFail (Except.ok ⟨"q", "u"⟩) =
      ([ConsumerEvent.callbackPost "u" failurePayload none],
       ConsumerOutcome.returned (some ("error querying Airtable: " ++ "boom"))) :=
  ⟨rfl, response_lookup_failure_sends_fixed_callback envLookupFail ⟨"q", "u"⟩ "boom" rfl⟩

/-- C7 (counterexample): query normalization is not idempotent — on
"search search a" one application yields "search a" and a second
application strips another prefix, yielding "a". -/
theorem normalizeQuery_not_idempotent_cex :
    normalizeQuery (normalizeQuery "search search a") ≠
      normalizeQuery "search search a" ∧
    normalizeQuery "search search a" = "search a" ∧
    normalizeQuery (normalizeQuery "search search a") = "a" := by decide

/-- C7 (amended): normalization strips one "search " prefix per
application; it is idempotent exactly on those queries whose
once-normalized form does not itself begin with "search " — in both
directions: for every query whose normal form lacks that prefix,
normalizing twice equals normalizing once, and for every query whose
normal form still carries it, a second normalization strictly shortens
the string, so the query is not a fixed point. -/
theorem normalizeQuery_idempotent_unless_nested (q : String) :
    normalizeQuery (normalizeQuery q) = normalizeQuery q ↔
      goHasPre (normalizeQuery q) "search " = false := by
  constructor
  · intro hid
    cases hb : goHasPre (normalizeQuery q) "search " with
    | false => rfl
    | true =>
      have hlen := normalizeQuery_shrinks (normalizeQuery q) hb
      rw [hid] at hlen
      omega
  · intro h
    exact normalizeQuery_eq_self (normalizeQuery q) h

/-- C7 (witness): the amended theorem applied to "search a", whose
normal form "a" does not begin with "search ", using the right-to-left
direction at that concrete point. -/
theorem normalizeQuery_idempotent_unless_nested_witness :
    (normalizeQuery (normalizeQuery "search a") = normalizeQuery "search a" ↔
      goHasPre (normalizeQuery "search a") "search " = false) ∧
    normalizeQuery (normalizeQuery "search a") = normalizeQuery "search a" :=
  ⟨normalizeQuery_idempotent_unless_nested "search a",
    (normalizeQuery_idempotent_unless_nested "search a").mpr (by decide)⟩

/-- C8 (confirmed): the signature comparison in `verifyWebHook` is Go's
`hmac.Equal`, i.e. `subtle.ConstantTimeCompare`, modelled by `hmacEqual`
with the explicit per-byte cost model `hmacEqualCost`: the cost depends
only on the lengths of the two byte strings — never on how many bytes
agree — and the comparison nevertheless decides exactly equality. -/
theorem hmacEqual_is_constant_time_equality (x y u v : List Nat)
    (hx : x.length = u.length) (hy : y.length = v.length) :
    hmacEqualCost x y = hmacEqualCost u v ∧
    (hmacEqual x y = true ↔ x = y) := by
  refine ⟨?_, hmacEqual_eq_true_iff x y⟩
  unfold hmacEqualCost
  by_cases h : x.length = y.length
  · have h2 : u.length = v.length := by rw [← hx, ← hy]; exact h
    rw [if_pos h, if_pos h2, ctcLoop_snd x y 0 h, ctcLoop_snd u v 0 h2, hx]
  · have h2 : ¬u.length = v.length := by rw [← hx, ← hy]; exact h
    rw [if_neg h, if_neg h2]

/-- C8 (witness): the theorem applied to two pairs of equal-length byte
strings, one agreeing in one byte, the other in none. -/
theorem hmacEqual_is_constant_time_equality_witness :
    ([1, 2] : List Nat).length = ([9, 9] : List Nat).length ∧
    ([1, 3] : List Nat).length = ([0, 0] : List Nat).length ∧
    (hmacEqualCost [1, 2] [1, 3] = hmacEqualCost [9, 9] [0, 0] ∧
      (hmacEqual [1, 2] [1, 3] = true ↔ ([1, 2] : List Nat) = [1, 3])) :=
  ⟨rfl, rfl, hmacEqual_is_constant_time_equality [1, 2] [1, 3] [9, 9] [0, 0] rfl rfl⟩

/-- C9 (confirmed): for every request whose ping query-string parameter
is non-empty, the `Queue` handler of src/queue/queue.go returns
immediately with an empty trace — no body read result is used, no method
check, no signature verification, no form validation, no publish — and
the caller observes the implicit empty-bodied 200 success response,
regardless of method, headers or body. -/
theorem queue_ping_short_circuits
    (env : QueueEnv) (cfg : QueueConfig) (r : HttpRequest)
    (h : r.pingQuery ≠ "") :
    Queue env cfg r = ([], HandlerResult.returned) ∧
    finalStatus (Queue env cfg r).1 = 200 := by
  unfold Queue
  rw [if_pos h]
  simp [finalStatus]

/-- C9 (witness): the theorem applied to a GET request with ping set. -/
theorem queue_ping_short_circuits_witness :
    reqPing.pingQuery ≠ "" ∧
    (Queue envOk cfgOk reqPing = ([], HandlerResult.returned) ∧
      finalStatus (Queue envOk cfgOk reqPing).1 = 200) :=
  ⟨by decide, queue_ping_short_circuits envOk cfgOk reqPing (by decide)⟩

/-- C10 (confirmed): the `Queue` handler guards only the "text" form
field: on a signed, well-formed POST request, if the form omits
channel_id — or has the allowed channel and non-empty text but omits
response_url — the unguarded index of element 0 has no value to return
and the handler ends in a Go runtime panic instead of producing a
rejection response. -/
theorem queue_missing_form_field_panics
    (env : QueueEnv) (cfg : QueueConfig) (r : HttpRequest)
    (t : String) (ts : List String)
    (hping : r.pingQuery = "") (hm : r.method = "POST")
    (hv : verifyWebHook env.hmacSHA256 env.now r cfg.slackSigSecret = Except.ok true)
    (ht : r.form "text" = t :: ts) :
    (r.form "channel_id" = [] →
      Queue env cfg r =
        ([QueueEvent.setContentType "application/json", QueueEvent.wroteStatus 200],
         HandlerResult.panicked indexPanicMsg)) ∧
    (∀ cs : List String, r.form "channel_id" = cfg.slackChannelID :: cs → t ≠ "" →
      r.form "response_url" = [] →
      Queue env cfg r =
        ([QueueEvent.setContentType "application/json", QueueEvent.wroteStatus 200],
         HandlerResult.panicked indexPanicMsg)) := by
  constructor
  · intro hc
    unfold Queue
    rw [hping, hm, hv, ht, hc]
    simp
  · intro cs hc htne hu
    unfold Queue
    rw [hping, hm, hv, ht, hc, hu]
    simp [htne]

/-- C10 (witness): the theorem applied to a concrete signed POST request
whose form has text but no channel_id: the handler panics. -/
theorem queue_missing_form_field_panics_witness :
    reqNoChannel.form "channel_id" = [] ∧
    Queue envOk cfgOk reqNoChannel =
      ([QueueEvent.setContentType "application/json", QueueEvent.wroteStatus 200],
       HandlerResult.panicked indexPanicMsg) :=
  ⟨by decide,
    (queue_missing_form_field_panics envOk cfgOk reqNoChannel "hi" []
      rfl rfl (by decide) (by decide)).1 (by decide)⟩
